import Mathlib

/-!
Verification of the AMPED PDF generator (`src/app.py`) against its
natural-language specification.

The program is a small Flask service whose core, `build_pdf_from_data`,
turns a parsed JSON payload into a ReportLab "story": an ordered list of
flowables (paragraphs, spacers, tables) that the platypus layout engine
then paginates and serializes.  The shallow embedding below models:

  * JSON scalars as an inductive `Scalar`, with Python's `dict.get`,
    truthiness, `str()`, `+=` and `format(x, ".1f")` semantics made
    explicit (numbers are modelled as exact integers/rationals: a parsed
    float literal is represented by the rational it denotes);
  * top-level payload values (`Field`) which may be scalars, arrays of
    records, or string-to-scalar objects;
  * the trade white-label table `TRADE_CONFIGS` and `get_trade_config`;
  * the story construction of `build_pdf_from_data`, section by section,
    as a function into `Except String (List Flowable)` — a Python
    exception escaping the builder is an `Except.error`;
  * the download-filename rule of the `generate_pdf` endpoint;
  * the row-splitting behaviour of the platypus `Table` flowable
    (`Table._splitRows`): the application constructs every table with the
    constructor default `repeatRows = 0`, and on a page split the
    continuation receives the first `repeatRows` rows followed by the
    remaining rows.

Failures are deterministic: the first Python exception raised while the
story is being built is the value of the whole computation.
-/

namespace AmpedPdf

/-- A JSON scalar as produced by `request.get_json()`: Python `str`,
`int`, `float`, `bool` or `None`.  A float is modelled by the exact
rational value of the literal that was parsed. -/
inductive Scalar where
  | str (s : String)
  | int (n : Int)
  | float (q : ℚ)
  | bool (b : Bool)
  | null
deriving DecidableEq

/-- A value of the top-level payload object: a scalar, an array of
records (objects with scalar fields), or an object with scalar fields.
This is the shape the endpoint documents for its payload. -/
inductive Field where
  | scalar (v : Scalar)
  | list (items : List (List (String × Scalar)))
  | dict (m : List (String × Scalar))
deriving DecidableEq

/-- One item record of a section collection: an open string-to-scalar
mapping (modelled as an association list with the key found first
winning, as in a Python dict). -/
abbrev Item := List (String × Scalar)

/-- The decoded request payload: the top-level JSON object. -/
abbrev Data := List (String × Field)

/-- Python `d.get(k, dflt)` on an item record: the stored value when the
key is present (even when that value is `None`), otherwise the default. -/
def dictGet (m : Item) (k : String) (dflt : Scalar) : Scalar :=
  (List.lookup k m).getD dflt

/-- Python `d.get(k1, d.get(k2, dflt))`: the nested-get alias idiom used
throughout `build_pdf_from_data`. -/
def dictGet2 (m : Item) (k1 k2 : String) (dflt : Scalar) : Scalar :=
  dictGet m k1 (dictGet m k2 dflt)

/-- Python `data.get(k, dflt)` on the top-level payload object. -/
def dataGet (d : Data) (k : String) (dflt : Field) : Field :=
  (List.lookup k d).getD dflt

/-- Python truthiness of a scalar: `None`, `0`, `0.0`, `False` and `""`
are falsy. -/
def Scalar.truthy : Scalar → Bool
  | .str s => !s.isEmpty
  | .int n => n != 0
  | .float q => q != 0
  | .bool b => b
  | .null => false

/-- Python truthiness of a payload value: empty collections are falsy. -/
def Field.truthy : Field → Bool
  | .scalar v => v.truthy
  | .list items => !items.isEmpty
  | .dict m => !m.isEmpty

/-- Iterating a truthy collection value with `for x in v` and calling
`x.get(...)` on the elements succeeds exactly when the value is a list of
records; any other truthy value raises (`TypeError`/`AttributeError`)
once the loop body runs. -/
def Field.asItems : Field → Except String (List Item)
  | .list items => .ok items
  | _ => .error "TypeError: collection is not a list of records"

/-- Calling `v.get(...)` on the summary value succeeds exactly when the
value is an object; any other truthy value raises `AttributeError`. -/
def Field.asDict : Field → Except String (List (String × Scalar))
  | .dict m => .ok m
  | _ => .error "AttributeError: summary value has no attribute get"

/-- The numeric view of a scalar used by Python arithmetic: ints and
bools (as 0/1) are exact integers, floats are their rational value. -/
def Scalar.asNum : Scalar → Option ℚ
  | .int n => some (n : ℚ)
  | .float q => some q
  | .bool b => some (if b then 1 else 0)
  | _ => none

/-- Whether Python arithmetic accepts the scalar as a number. -/
def Scalar.isNumLike : Scalar → Bool
  | .int _ => true
  | .float _ => true
  | .bool _ => true
  | _ => false

/-- The rational value of a number-like scalar (0 on non-numbers; only
used under an `isNumLike` hypothesis). -/
def Scalar.qval : Scalar → ℚ
  | .int n => (n : ℚ)
  | .float q => q
  | .bool b => if b then 1 else 0
  | _ => 0

/-- Python `a + b` as used by `total += value`: int-ish operands stay
ints, a float operand makes the result a float, and a non-numeric
operand raises `TypeError`. -/
def pyAdd : Scalar → Scalar → Except String Scalar
  | .int a, .int b => .ok (.int (a + b))
  | .int a, .bool b => .ok (.int (a + if b then 1 else 0))
  | .int a, .float q => .ok (.float ((a : ℚ) + q))
  | .bool a, .int b => .ok (.int ((if a then 1 else 0) + b))
  | .bool a, .bool b => .ok (.int ((if a then 1 else 0) + (if b then 1 else 0)))
  | .bool a, .float q => .ok (.float ((if a then (1 : ℚ) else 0) + q))
  | .float q, .int b => .ok (.float (q + (b : ℚ)))
  | .float q, .bool b => .ok (.float (q + if b then 1 else 0))
  | .float p, .float q => .ok (.float (p + q))
  | _, _ => .error "TypeError: unsupported operand type(s) for +="

/-- Round the fraction `n / d` (with `d > 0`) to the nearest integer,
ties to even — the rounding used by Python's fixed-point float
formatting on exactly representable values.  Integer arithmetic only, so
the definition evaluates by kernel reduction. -/
def roundHalfEvenDiv (n d : Int) : Int :=
  let f := Int.fdiv n d
  let r2 := (n - f * d) * 2
  if r2 < d then f
  else if d < r2 then f + 1
  else if f % 2 = 0 then f else f + 1

/-- `format(x, ".1f")` on the exact value `q`: one digit after the
decimal point, ties to even. -/
def formatFixed1q (q : ℚ) : String :=
  let n := roundHalfEvenDiv (q.num * 10) (q.den : Int)
  let sign := if n < 0 then "-" else ""
  sign ++ toString (n.natAbs / 10) ++ "." ++ toString (n.natAbs % 10)

/-- Python `f-string` formatting with `:.1f`: accepts ints, floats and
bools; raises on strings and `None`. -/
def formatFixed1 : Scalar → Except String String
  | .int n => .ok (formatFixed1q (n : ℚ))
  | .float q => .ok (formatFixed1q q)
  | .bool b => .ok (formatFixed1q (if b then 1 else 0))
  | .str _ => .error "ValueError: Unknown format code f for object of type str"
  | .null => .error "TypeError: unsupported format string passed to NoneType.__format__"

/-- Smallest number of decimal digits (up to 17) that writes a fraction
with the given reduced denominator exactly (parsed float literals always
have a short exact expansion). -/
def fracDigits (den : Nat) : Option Nat :=
  (List.range 18).find? (fun k => 10 ^ k % den == 0)

/-- Left-pad a digit string with zeros to the given width. -/
def padZeros (s : String) (k : Nat) : String :=
  (List.replicate (k - s.length) '0').asString ++ s

/-- Python `str()` of a float value: the exact decimal expansion, with
at least one digit after the point (`2.0`, `1.5`, `3.25`). -/
def floatRepr (q : ℚ) : String :=
  match fracDigits q.den with
  | some 0 => (if q.num < 0 then "-" else "") ++ toString q.num.natAbs ++ ".0"
  | some k =>
      let a := q.num.natAbs * 10 ^ k / q.den
      (if q.num < 0 then "-" else "") ++ toString (a / 10 ^ k) ++ "." ++
        padZeros (toString (a % 10 ^ k)) k
  | none => toString q.num ++ "/" ++ toString q.den

/-- Python `str()` of a scalar. -/
def Scalar.pyStr : Scalar → String
  | .str s => s
  | .int n => toString n
  | .float q => floatRepr q
  | .bool b => if b then "True" else "False"
  | .null => "None"

/-- Python `v[:25]` as applied to the `from`/`to` fields: slices strings
to at most 25 characters and raises `TypeError` on non-subscriptable
scalars (including `None`). -/
def pyTake25 : Scalar → Except String String
  | .str s => .ok (s.take 25)
  | _ => .error "TypeError: value is not subscriptable"

/-- A ReportLab color as used by the module: either a hex literal from
`colors.HexColor` or one of the named colors the module mentions. -/
inductive Color where
  | hexColor (code : String)
  | white
  | grey
  | lightgrey
deriving DecidableEq

/-- One entry of `TRADE_CONFIGS`: display name plus the three theme
colors. -/
structure TradeConfig where
  name : String
  primary_color : Color
  secondary_color : Color
  accent_color : Color
deriving DecidableEq

/-- The `"electrical"` entry of `TRADE_CONFIGS`. -/
def electricalConfig : TradeConfig :=
  ⟨"Electrical", .hexColor "#0066CC", .hexColor "#003366", .hexColor "#FF9800"⟩

/-- The `"hvac"` entry of `TRADE_CONFIGS`. -/
def hvacConfig : TradeConfig :=
  ⟨"HVAC", .hexColor "#FF6B00", .hexColor "#CC5500", .hexColor "#FFB84D"⟩

/-- The `"plumbing"` entry of `TRADE_CONFIGS`. -/
def plumbingConfig : TradeConfig :=
  ⟨"Plumbing", .hexColor "#2196F3", .hexColor "#1565C0", .hexColor "#64B5F6"⟩

/-- The `"flooring"` entry of `TRADE_CONFIGS`. -/
def flooringConfig : TradeConfig :=
  ⟨"Flooring", .hexColor "#8B4513", .hexColor "#654321", .hexColor "#CD853F"⟩

/-- The fixed trade white-label table `TRADE_CONFIGS`. -/
def TRADE_CONFIGS : List (String × TradeConfig) :=
  [("electrical", electricalConfig), ("hvac", hvacConfig),
   ("plumbing", plumbingConfig), ("flooring", flooringConfig)]

/-- Python `s.lower()` (character-wise; the trade identifiers are
ASCII, where this matches Python exactly). -/
def pyLower (s : String) : String :=
  ⟨s.data.map Char.toLower⟩

/-- `get_trade_config`: lowercases a truthy trade string, treats a falsy
one (`None` or `""`) as `"electrical"`, and looks the result up in
`TRADE_CONFIGS`, defaulting to the electrical entry on a miss. -/
def get_trade_config (trade_type : Option String) : TradeConfig :=
  let trade := match trade_type with
    | none => "electrical"
    | some s => if s.isEmpty then "electrical" else pyLower s
  (List.lookup trade TRADE_CONFIGS).getD electricalConfig

/-- Paragraph alignment constants used by the module. -/
inductive Alignment where
  | taCenter
  | taLeft
deriving DecidableEq

/-- The fields of the `ParagraphStyle` objects the module constructs. -/
structure ParaStyle where
  name : String
  parent : String
  fontSize : ℚ
  textColor : Color
  spaceAfter : Option ℚ
  spaceBefore : Option ℚ
  alignment : Option Alignment
deriving DecidableEq

/-- The `CustomTitle` style: Heading1, 24pt, primary color, centered. -/
def title_style (cfg : TradeConfig) : ParaStyle :=
  ⟨"CustomTitle", "Heading1", 24, cfg.primary_color, some 12, none, some .taCenter⟩

/-- The `CustomHeading` style: Heading2, 16pt, primary color. -/
def heading_style (cfg : TradeConfig) : ParaStyle :=
  ⟨"CustomHeading", "Heading2", 16, cfg.primary_color, some 12, some 12, none⟩

/-- The `Footer` style: Normal, 9pt, grey, centered. -/
def footer_style : ParaStyle :=
  ⟨"Footer", "Normal", 9, .grey, none, none, some .taCenter⟩

/-- A table cell: either a string the code built, or a raw payload value
placed into the table unconverted (company/project and the un-`str`ed
item fields). -/
inductive Cell where
  | txt (s : String)
  | raw (v : Field)
deriving DecidableEq

/-- One argument of a `TableStyle` command. -/
inductive StyleArg where
  | colorArg (c : Color)
  | strArg (s : String)
  | numArg (q : ℚ)
  | colorListArg (cs : List Color)
deriving DecidableEq

/-- One `TableStyle` command: name, start cell, stop cell, arguments
(cell coordinates use ReportLab's negative-index convention verbatim). -/
structure StyleCmd where
  cmd : String
  cellStart : Int × Int
  cellStop : Int × Int
  args : List StyleArg
deriving DecidableEq

/-- A platypus `Table` flowable as the module constructs it.
`repeatRows` is the constructor argument of the same name; the module
never passes it, so every table carries the constructor default `0`. -/
structure PTable where
  rows : List (List Cell)
  colWidths : List ℚ
  style : List StyleCmd
  repeatRows : Nat
deriving DecidableEq

/-- A story element: `Paragraph`, `Spacer` or `Table`.  `pageBreak`
models the explicit `PageBreak` flowable (imported by the module but
never appended). -/
inductive Flowable where
  | para (text : String) (style : ParaStyle)
  | spacer (w h : ℚ)
  | table (t : PTable)
  | pageBreak
deriving DecidableEq

/-- One inch in points, as `reportlab.lib.units.inch`. -/
def inch : ℚ := 72

/-- The style of the company/project info table. -/
def info_table_style (cfg : TradeConfig) : List StyleCmd :=
  [⟨"FONT", (0, 0), (0, -1), [.strArg "Helvetica-Bold", .numArg 10]⟩,
   ⟨"FONT", (1, 0), (1, -1), [.strArg "Helvetica", .numArg 10]⟩,
   ⟨"TEXTCOLOR", (0, 0), (0, -1), [.colorArg cfg.primary_color]⟩,
   ⟨"ALIGN", (0, 0), (-1, -1), [.strArg "LEFT"]⟩,
   ⟨"VALIGN", (0, 0), (-1, -1), [.strArg "TOP"]⟩]

/-- The style of the conduit-routing table: header background is the
theme's primary color. -/
def route_table_style (cfg : TradeConfig) : List StyleCmd :=
  [⟨"BACKGROUND", (0, 0), (-1, 0), [.colorArg cfg.primary_color]⟩,
   ⟨"TEXTCOLOR", (0, 0), (-1, 0), [.colorArg .white]⟩,
   ⟨"FONT", (0, 0), (-1, 0), [.strArg "Helvetica-Bold", .numArg 10]⟩,
   ⟨"FONT", (0, 1), (-1, -1), [.strArg "Helvetica", .numArg 9]⟩,
   ⟨"ALIGN", (0, 0), (-1, -1), [.strArg "LEFT"]⟩,
   ⟨"VALIGN", (0, 0), (-1, -1), [.strArg "MIDDLE"]⟩,
   ⟨"GRID", (0, 0), (-1, -1), [.numArg (1/2), .colorArg .grey]⟩,
   ⟨"ROWBACKGROUNDS", (0, 1), (-1, -1), [.colorListArg [.white, .lightgrey]]⟩]

/-- The style of the devices table: header background is the theme's
secondary color; the appended TOTAL row gets a lightgrey background. -/
def device_table_style (cfg : TradeConfig) : List StyleCmd :=
  [⟨"BACKGROUND", (0, 0), (-1, 0), [.colorArg cfg.secondary_color]⟩,
   ⟨"TEXTCOLOR", (0, 0), (-1, 0), [.colorArg .white]⟩,
   ⟨"FONT", (0, 0), (-1, 0), [.strArg "Helvetica-Bold", .numArg 10]⟩,
   ⟨"FONT", (0, 1), (-1, -2), [.strArg "Helvetica", .numArg 9]⟩,
   ⟨"FONT", (0, -1), (-1, -1), [.strArg "Helvetica-Bold", .numArg 10]⟩,
   ⟨"BACKGROUND", (0, -1), (-1, -1), [.colorArg .lightgrey]⟩,
   ⟨"ALIGN", (1, 0), (-1, -1), [.strArg "CENTER"]⟩,
   ⟨"ALIGN", (0, 0), (0, -1), [.strArg "LEFT"]⟩,
   ⟨"VALIGN", (0, 0), (-1, -1), [.strArg "MIDDLE"]⟩,
   ⟨"GRID", (0, 0), (-1, -1), [.numArg (1/2), .colorArg .grey]⟩,
   ⟨"ROWBACKGROUNDS", (0, 1), (-1, -2), [.colorListArg [.white, .lightgrey]]⟩]

/-- The style of the conduit-summary table: header background is the
theme's accent color. -/
def conduit_table_style (cfg : TradeConfig) : List StyleCmd :=
  [⟨"BACKGROUND", (0, 0), (-1, 0), [.colorArg cfg.accent_color]⟩,
   ⟨"TEXTCOLOR", (0, 0), (-1, 0), [.colorArg .white]⟩,
   ⟨"FONT", (0, 0), (-1, 0), [.strArg "Helvetica-Bold", .numArg 10]⟩,
   ⟨"FONT", (0, 1), (-1, -2), [.strArg "Helvetica", .numArg 9]⟩,
   ⟨"FONT", (0, -1), (-1, -1), [.strArg "Helvetica-Bold", .numArg 10]⟩,
   ⟨"BACKGROUND", (0, -1), (-1, -1), [.colorArg .lightgrey]⟩,
   ⟨"ALIGN", (0, 0), (-1, -1), [.strArg "CENTER"]⟩,
   ⟨"VALIGN", (0, 0), (-1, -1), [.strArg "MIDDLE"]⟩,
   ⟨"GRID", (0, 0), (-1, -1), [.numArg (1/2), .colorArg .grey]⟩,
   ⟨"ROWBACKGROUNDS", (0, 1), (-1, -2), [.colorListArg [.white, .lightgrey]]⟩]

/-- The style of the project-summary table. -/
def summary_table_style (cfg : TradeConfig) : List StyleCmd :=
  [⟨"FONT", (0, 0), (0, -1), [.strArg "Helvetica-Bold", .numArg 10]⟩,
   ⟨"FONT", (1, 0), (1, -1), [.strArg "Helvetica", .numArg 10]⟩,
   ⟨"TEXTCOLOR", (0, 0), (0, -1), [.colorArg cfg.primary_color]⟩,
   ⟨"ALIGN", (0, 0), (-1, -1), [.strArg "LEFT"]⟩,
   ⟨"VALIGN", (0, 0), (-1, -1), [.strArg "TOP"]⟩]

/-- The title paragraph text (the literal characters of the source,
whose emoji bytes are mojibake). -/
def title_text (cfg : TradeConfig) : String :=
  "‚ö° AMPED " ++ cfg.name ++ " Analysis"

/-- The conduit-routing section heading text. -/
def route_heading_text : String := "üîß Conduit Routing Analysis"

/-- The devices section heading text. -/
def device_heading_text : String := "üîå Devices & Fixtures"

/-- The conduit-summary section heading text. -/
def conduit_heading_text : String := "üì¶ Conduit Summary"

/-- The project-summary section heading text. -/
def summary_heading_text : String := "üìä Project Summary"

/-- The NEC-compliant glyph for a truthy flag. -/
def nec_yes_text : String := "Yes ‚úì"

/-- The NEC-compliant glyph for a falsy flag. -/
def nec_no_text : String := "NO ‚ö†Ô∏è"

/-- The header row of the conduit-routing table. -/
def route_headers : List Cell :=
  [.txt "Route ID", .txt "From", .txt "To", .txt "Size",
   .txt "Distance (ft)", .txt "NEC Compliant"]

/-- One data row of the conduit-routing table: `routeId` and
`size_required` go in raw, `from`/`to` are sliced to 25 characters,
`total_distance` is `str()`-ed, and `necCompliant` (default `True`) is
rendered by truthiness. -/
def route_row (route : Item) : Except String (List Cell) := do
  let fromCell ← pyTake25 (dictGet route "from" (.str ""))
  let toCell ← pyTake25 (dictGet route "to" (.str ""))
  .ok [.raw (.scalar (dictGet route "routeId" (.str ""))),
       .txt fromCell, .txt toCell,
       .raw (.scalar (dictGet route "size_required" (.str ""))),
       .txt (dictGet route "total_distance" (.str "")).pyStr,
       .txt (if (dictGet route "necCompliant" (.bool true)).truthy
             then nec_yes_text else nec_no_text)]

/-- The route-row loop: one row per route, in input order; the first
raised exception aborts the build. -/
def route_rows_list : List Item → Except String (List (List Cell))
  | [] => .ok []
  | route :: rest => do
      let row ← route_row route
      let rows ← route_rows_list rest
      .ok (row :: rows)

/-- The CONDUIT ROUTING SECTION: emitted only when the value bound to
`conduitRoutes` is truthy. -/
def route_section (cfg : TradeConfig) (f : Field) : Except String (List Flowable) :=
  if f.truthy then do
    let items ← f.asItems
    let rows ← route_rows_list items
    .ok [.para route_heading_text (heading_style cfg),
         .table ⟨route_headers :: rows,
                 [0.8 * inch, 1.8 * inch, 1.8 * inch, 0.8 * inch, 1 * inch, 1.2 * inch],
                 route_table_style cfg, 0⟩,
         .spacer 1 (0.2 * inch)]
  else .ok []

/-- The header row of the devices table. -/
def device_headers : List Cell :=
  [.txt "Device Type", .txt "Quantity", .txt "Unit", .txt "Labor Hours"]

/-- The device-row loop: accumulates `total_labor` (starting from the
int `0`) with Python `+=`, formatting each row's labor hours with
`:.1f`.  A non-numeric labor value raises and aborts the build. -/
def device_rows : List Item → Scalar → Except String (List (List Cell) × Scalar)
  | [], total => .ok ([], total)
  | device :: rest, total => do
      let qty := dictGet2 device "quantity" "qty" (.int 0)
      let labor := dictGet2 device "total_labor_hours" "labor_hours" (.int 0)
      let total' ← pyAdd total labor
      let laborCell ← formatFixed1 labor
      let row := [.raw (.scalar (dictGet2 device "type" "item" (.str "Unknown"))),
                  .txt qty.pyStr,
                  .raw (.scalar (dictGet device "unit" (.str "EA"))),
                  .txt laborCell]
      let (rows, totalF) ← device_rows rest total'
      .ok (row :: rows, totalF)

/-- The DEVICES SECTION: emitted only when the value resolved from
`deviceCounts`/`devices` is truthy; ends with the TOTAL row. -/
def device_section (cfg : TradeConfig) (f : Field) : Except String (List Flowable) :=
  if f.truthy then do
    let items ← f.asItems
    let (rows, total) ← device_rows items (.int 0)
    let totalCell ← formatFixed1 total
    .ok [.para device_heading_text (heading_style cfg),
         .table ⟨device_headers :: (rows ++ [[.txt "TOTAL", .txt "", .txt "", .txt (totalCell ++ " hrs")]]),
                 [3 * inch, 1 * inch, 0.8 * inch, 1.5 * inch],
                 device_table_style cfg, 0⟩,
         .spacer 1 (0.2 * inch)]
  else .ok []

/-- The header row of the conduit-summary table. -/
def conduit_headers : List Cell :=
  [.txt "Type", .txt "Size", .txt "Length (ft)", .txt "NEC Compliant"]

/-- The conduit-row loop: accumulates `total_conduit` (starting from the
int `0`) with Python `+=`; `length_ft` is `str()`-ed into the row. -/
def conduit_rows : List Item → Scalar → Except String (List (List Cell) × Scalar)
  | [], total => .ok ([], total)
  | item :: rest, total => do
      let lengthVal := dictGet item "length_ft" (.int 0)
      let total' ← pyAdd total lengthVal
      let row := [.raw (.scalar (dictGet item "type" (.str "EMT"))),
                  .raw (.scalar (dictGet item "size" (.str ""))),
                  .txt lengthVal.pyStr,
                  .raw (.scalar (dictGet item "nec_compliant" (.str "Yes")))]
      let (rows, totalF) ← conduit_rows rest total'
      .ok (row :: rows, totalF)

/-- The CONDUIT SUMMARY section: emitted only when the value bound to
`conduit` is truthy; ends with the TOTAL row. -/
def conduit_section (cfg : TradeConfig) (f : Field) : Except String (List Flowable) :=
  if f.truthy then do
    let items ← f.asItems
    let (rows, total) ← conduit_rows items (.int 0)
    .ok [.para conduit_heading_text (heading_style cfg),
         .table ⟨conduit_headers :: (rows ++ [[.txt "TOTAL", .txt "", .txt (total.pyStr ++ " ft"), .txt ""]]),
                 [1.5 * inch, 1.5 * inch, 1.5 * inch, 1.5 * inch],
                 conduit_table_style cfg, 0⟩,
         .spacer 1 (0.2 * inch)]
  else .ok []

/-- The three rows of the project-summary table: only the keys
`total_devices`, `total_conduit_ft` and `total_routes` are read, each
defaulting to the int `0`. -/
def summary_rows (m : List (String × Scalar)) : List (List Cell) :=
  [[.txt "Total Devices:", .txt (dictGet m "total_devices" (.int 0)).pyStr],
   [.txt "Total Conduit:", .txt ((dictGet m "total_conduit_ft" (.int 0)).pyStr ++ " ft")],
   [.txt "Total Routes:", .txt (dictGet m "total_routes" (.int 0)).pyStr]]

/-- The SUMMARY section: emitted only when the value bound to `summary`
is truthy (so a present-but-empty mapping renders nothing). -/
def summary_section (cfg : TradeConfig) (f : Field) : Except String (List Flowable) :=
  if f.truthy then do
    let m ← f.asDict
    .ok [.para summary_heading_text (heading_style cfg),
         .table ⟨summary_rows m, [2 * inch, 2 * inch], summary_table_style cfg, 0⟩]
  else .ok []

/-- The rows of the company/project info table: company and project go
in raw; `today` is the `datetime.now().strftime` date string. -/
def info_rows (data : Data) (today : String) (cfg : TradeConfig) : List (List Cell) :=
  [[.txt "Company:", .raw (dataGet data "companyName" (.scalar (.str "Company")))],
   [.txt "Project:", .raw (dataGet data "projectName" (.scalar (.str "Project")))],
   [.txt "Date:", .txt today],
   [.txt "Trade Type:", .txt cfg.name]]

/-- `build_pdf_from_data`: the full story, in source order — title,
spacer, info table, spacer, the four optional sections, then the footer.
`today` is the only time-derived input. -/
def build_pdf_from_data (data : Data) (cfg : TradeConfig) (today : String) :
    Except String (List Flowable) := do
  let routesPart ← route_section cfg (dataGet data "conduitRoutes" (.list []))
  let devicesPart ← device_section cfg
    (dataGet data "deviceCounts" (dataGet data "devices" (.list [])))
  let conduitPart ← conduit_section cfg (dataGet data "conduit" (.list []))
  let summaryPart ← summary_section cfg (dataGet data "summary" (.dict []))
  .ok ([.para (title_text cfg) (title_style cfg),
        .spacer 1 (0.2 * inch),
        .table ⟨info_rows data today cfg, [1.5 * inch, 5 * inch], info_table_style cfg, 0⟩,
        .spacer 1 (0.3 * inch)]
       ++ routesPart ++ devicesPart ++ conduitPart ++ summaryPart
       ++ [.spacer 1 (0.5 * inch),
           .para "Generated by AMPED AI Estimating Assistant v3.2" footer_style,
           .para "¬© 2025 Amped Integrations, LLC" footer_style])

/-- Python `s.replace(' ', '_')`: with a one-character pattern this is a
per-character substitution. -/
def replaceSpaces (s : String) : String :=
  ⟨s.data.map (fun c => if c == ' ' then '_' else c)⟩

/-- The download filename built by the `generate_pdf` endpoint:
`f"{project_name.replace(' ', '_')}_{trade_config['name']}_Annotated.pdf"`. -/
def make_filename (project_name : String) (cfg : TradeConfig) : String :=
  replaceSpaces project_name ++ "_" ++ cfg.name ++ "_Annotated.pdf"

/-- Row splitting of a platypus `Table` at a page break
(`Table._splitRows`): when the first `k` rows fit on the current page,
the continuation table receives the first `repeatRows` rows followed by
the remaining rows. -/
def table_split_rows (rows : List (List Cell)) (repeatRows k : Nat) :
    List (List Cell) × List (List Cell) :=
  (rows.take k, rows.take repeatRows ++ rows.drop k)

/-- Blank the date cell of the info-table rows (row 2, column 1). -/
def scrub_info_rows (rows : List (List Cell)) : List (List Cell) :=
  rows.set 2 [.txt "Date:", .txt ""]

/-- Blank the generated-at date in a built story: the info table is the
third flowable of every successful build. -/
def scrub_date : List Flowable → List Flowable
  | a :: b :: .table t :: rest =>
      a :: b :: .table ⟨scrub_info_rows t.rows, t.colWidths, t.style, t.repeatRows⟩ :: rest
  | fs => fs

/-- The labor-hours value the device loop reads from one item (alias
chain `total_labor_hours` then `labor_hours`, default int `0`). -/
def laborVal (device : Item) : Scalar :=
  dictGet2 device "total_labor_hours" "labor_hours" (.int 0)

/-- The exact sum of the labor-hours values of a device list. -/
def laborTotal (ds : List Item) : ℚ :=
  (ds.map (fun d => (laborVal d).qval)).sum

/-- The row the device loop produces for one item whose labor value is
numeric (derived closed form of the loop body). -/
def device_row_pure (device : Item) : List Cell :=
  [.raw (.scalar (dictGet2 device "type" "item" (.str "Unknown"))),
   .txt (dictGet2 device "quantity" "qty" (.int 0)).pyStr,
   .raw (.scalar (dictGet device "unit" (.str "EA"))),
   .txt (formatFixed1q (laborVal device).qval)]

/- Basic reduction lemmas for the Except monad. -/

@[simp]
theorem except_bind_ok {ε α β : Type} (a : α) (f : α → Except ε β) :
    (Except.ok a >>= f) = f a := rfl

@[simp]
theorem except_bind_error {ε α β : Type} (e : ε) (f : α → Except ε β) :
    ((Except.error e : Except ε α) >>= f) = Except.error e := rfl

/-- Python `+=` raises on a non-numeric right operand, whatever the
accumulator holds. -/
theorem pyAdd_bad (t v : Scalar) (h : v.isNumLike = false) :
    pyAdd t v = .error "TypeError: unsupported operand type(s) for +=" := by
  cases t <;> cases v <;> simp_all [pyAdd, Scalar.isNumLike]

/-- Python `+=` on numeric scalars succeeds, stays numeric, and adds the
exact values. -/
theorem pyAdd_num (a b : Scalar) (ha : a.isNumLike = true) (hb : b.isNumLike = true) :
    ∃ c, pyAdd a b = .ok c ∧ c.isNumLike = true ∧ c.qval = a.qval + b.qval := by
  cases a <;> cases b <;>
    simp_all [pyAdd, Scalar.isNumLike, Scalar.qval]

/-- `:.1f` formatting succeeds on numeric scalars and formats the exact
value. -/
theorem formatFixed1_num (v : Scalar) (h : v.isNumLike = true) :
    formatFixed1 v = .ok (formatFixed1q v.qval) := by
  cases v <;> simp_all [formatFixed1, Scalar.isNumLike, Scalar.qval]

/-- If some device in the list carries a non-numeric labor value, the
device-row loop raises (whatever the accumulator holds). -/
theorem device_rows_bad (ds : List Item) (t : Scalar) (d : Item)
    (hd : d ∈ ds) (hbad : (laborVal d).isNumLike = false) :
    ∃ e, device_rows ds t = .error e := by
  induction ds generalizing t with
  | nil => cases hd
  | cons device rest ih =>
      rcases List.mem_cons.mp hd with rfl | htail
      · have hbad' : (dictGet2 d "total_labor_hours" "labor_hours" (.int 0)).isNumLike = false := hbad
        exact ⟨"TypeError: unsupported operand type(s) for +=",
          by simp [device_rows, pyAdd_bad t _ hbad']⟩
      · cases hadd : pyAdd t (dictGet2 device "total_labor_hours" "labor_hours" (.int 0)) with
        | error e => exact ⟨e, by simp [device_rows, hadd]⟩
        | ok total' =>
            cases hfmt : formatFixed1 (dictGet2 device "total_labor_hours" "labor_hours" (.int 0)) with
            | error e => exact ⟨e, by simp [device_rows, hadd, hfmt]⟩
            | ok s =>
                obtain ⟨e, he⟩ := ih total' htail
                exact ⟨e, by simp [device_rows, hadd, hfmt, he]⟩

/-- Payload with a single device whose labor-hours value is the string
"three". -/
def c1_bad_data : Data :=
  [("deviceCounts", Field.list [[("labor_hours", Scalar.str "three")]])]

/-- C1 (counterexample): a device whose labor-hours value is a string
does not fall back to 0 — `total_labor += labor` raises `TypeError`,
the build aborts, and the endpoint turns the exception into a failed
request.  No device row is emitted. -/
theorem nonnumeric_labor_raises_counterexample :
    build_pdf_from_data c1_bad_data electricalConfig "2025-10-12" =
      .error "TypeError: unsupported operand type(s) for +=" := rfl

/-- C1 (amended): whenever the resolved devices collection contains an
item whose labor-hours value (alias chain `total_labor_hours` then
`labor_hours`) is non-numeric, the whole render aborts with an error:
there is no fallback to 0 and the device row is not emitted. -/
theorem nonnumeric_labor_aborts_render (data : Data) (cfg : TradeConfig) (today : String)
    (ds : List Item) (d : Item)
    (hds : dataGet data "deviceCounts" (dataGet data "devices" (.list [])) = .list ds)
    (hd : d ∈ ds) (hbad : (laborVal d).isNumLike = false) :
    ∃ e, build_pdf_from_data data cfg today = .error e := by
  have htr : (Field.list ds).truthy = true := by
    cases ds with
    | nil => exact absurd rfl (List.ne_nil_of_mem hd)
    | cons x xs => rfl
  have hsec : ∃ e, device_section cfg (.list ds) = .error e := by
    obtain ⟨e, he⟩ := device_rows_bad ds (.int 0) d hd hbad
    exact ⟨e, by simp [device_section, htr, Field.asItems, he]⟩
  obtain ⟨e, he⟩ := hsec
  cases h1 : route_section cfg (dataGet data "conduitRoutes" (.list [])) with
  | error e1 => exact ⟨e1, by simp [build_pdf_from_data, h1]⟩
  | ok r => exact ⟨e, by simp [build_pdf_from_data, h1, hds, he]⟩

/-- C1 (witness): the amended theorem applied to the concrete payload
with a string labor value. -/
theorem nonnumeric_labor_aborts_render_witness :
    ∃ e, build_pdf_from_data c1_bad_data electricalConfig "2025-10-12" = .error e :=
  nonnumeric_labor_aborts_render c1_bad_data electricalConfig "2025-10-12"
    [[("labor_hours", Scalar.str "three")]] [("labor_hours", Scalar.str "three")]
    rfl (List.mem_singleton.mpr rfl) rfl

/-- C5 (counterexample): with `{quantity: None, qty: 5}` the quantity
does not fall through to `qty` — `dict.get` returns the stored `None`,
and the rendered quantity cell is the string "None", not "5". -/
theorem alias_null_fallthrough_counterexample :
    device_rows [[("quantity", Scalar.null), ("qty", Scalar.int 5)]] (.int 0) =
      .ok ([[.raw (.scalar (.str "Unknown")), .txt "None",
             .raw (.scalar (.str "EA")), .txt "0.0"]], .int 0) ∧
    dictGet2 [("quantity", Scalar.null), ("qty", Scalar.int 5)] "quantity" "qty" (.int 0) ≠
      .int 5 :=
  ⟨rfl, by decide⟩

/-- C5 (amended): alias-chain resolution returns the value of the first
key that is present — even when that value is null (a present-but-null
primary key does not fall through) — and the declared default only when
no alias key is present; the devices collection key is resolved the
same way (`deviceCounts` first, `devices` only when `deviceCounts` is
absent, else an empty list).  An item `{qty: 5}` renders quantity "5". -/
theorem alias_resolution_first_present_key :
    (∀ (d : Item) (k1 k2 : String) (dflt v : Scalar),
        List.lookup k1 d = some v → dictGet2 d k1 k2 dflt = v) ∧
    (∀ (d : Item) (k1 k2 : String) (dflt v : Scalar),
        List.lookup k1 d = none → List.lookup k2 d = some v →
        dictGet2 d k1 k2 dflt = v) ∧
    (∀ (d : Item) (k1 k2 : String) (dflt : Scalar),
        List.lookup k1 d = none → List.lookup k2 d = none →
        dictGet2 d k1 k2 dflt = dflt) ∧
    (∀ (data : Data) (v : Field),
        List.lookup "deviceCounts" data = some v →
        dataGet data "deviceCounts" (dataGet data "devices" (.list [])) = v) ∧
    (∀ (data : Data) (v : Field),
        List.lookup "deviceCounts" data = none → List.lookup "devices" data = some v →
        dataGet data "deviceCounts" (dataGet data "devices" (.list [])) = v) ∧
    (∀ (data : Data),
        List.lookup "deviceCounts" data = none → List.lookup "devices" data = none →
        dataGet data "deviceCounts" (dataGet data "devices" (.list [])) = .list []) ∧
    device_rows [[("qty", Scalar.int 5)]] (.int 0) =
      .ok ([[.raw (.scalar (.str "Unknown")), .txt "5",
             .raw (.scalar (.str "EA")), .txt "0.0"]], .int 0) := by
  refine ⟨?_, ?_, ?_, ?_, ?_, ?_, rfl⟩
  · intro d k1 k2 dflt v h
    simp [dictGet2, dictGet, h]
  · intro d k1 k2 dflt v h1 h2
    simp [dictGet2, dictGet, h1, h2]
  · intro d k1 k2 dflt h1 h2
    simp [dictGet2, dictGet, h1, h2]
  · intro data v h
    simp [dataGet, h]
  · intro data v h1 h2
    simp [dataGet, h1, h2]
  · intro data h1 h2
    simp [dataGet, h1, h2]

/-- C5 (witness): the amended theorem at concrete items — a present
null quantity resolves to null (rendered "None"), and an absent primary
key falls through to `qty`. -/
theorem alias_resolution_first_present_key_witness :
    dictGet2 [("quantity", Scalar.null), ("qty", Scalar.int 5)] "quantity" "qty" (.int 0) =
      Scalar.null ∧
    dictGet2 [("qty", Scalar.int 5)] "quantity" "qty" (.int 0) = .int 5 :=
  ⟨alias_resolution_first_present_key.1 _ "quantity" "qty" (.int 0) Scalar.null rfl,
   alias_resolution_first_present_key.2.1 _ "quantity" "qty" (.int 0) (.int 5) rfl rfl⟩

/-- C7 (counterexample): an item with none of a column's aliases does
not render a type-matched default — the device-type cell defaults to the
string "Unknown" (not the empty string), as the computed row shows. -/
theorem missing_field_type_matched_default_counterexample :
    device_rows [[]] (.int 0) =
      .ok ([[.raw (.scalar (.str "Unknown")), .txt "0",
             .raw (.scalar (.str "EA")), .txt "0.0"]], .int 0) ∧
    route_row [] = .ok [.raw (.scalar (.str "")), .txt "", .txt "",
      .raw (.scalar (.str "")), .txt "", .txt nec_yes_text] ∧
    Scalar.str "Unknown" ≠ Scalar.str "" :=
  ⟨rfl, rfl, by decide⟩

/-- C7 (amended): an item with none of a column's aliases present
renders that cell as the column's declared per-column default — route
fields default to the empty string (including the numeric-looking
`total_distance`), `necCompliant` to true; device type to "Unknown",
quantity to 0, unit to "EA", labor hours to 0; conduit type to "EMT",
size to the empty string, length to 0 and `nec_compliant` to the string
"Yes" — and the render does not raise. -/
theorem missing_field_declared_defaults :
    (∀ r : Item, List.lookup "routeId" r = none → List.lookup "from" r = none →
      List.lookup "to" r = none → List.lookup "size_required" r = none →
      List.lookup "total_distance" r = none → List.lookup "necCompliant" r = none →
      route_row r = .ok [.raw (.scalar (.str "")), .txt "", .txt "",
        .raw (.scalar (.str "")), .txt "", .txt nec_yes_text]) ∧
    (∀ d : Item, List.lookup "type" d = none → List.lookup "item" d = none →
      List.lookup "quantity" d = none → List.lookup "qty" d = none →
      List.lookup "total_labor_hours" d = none → List.lookup "labor_hours" d = none →
      List.lookup "unit" d = none →
      device_rows [d] (.int 0) =
        .ok ([[.raw (.scalar (.str "Unknown")), .txt "0",
               .raw (.scalar (.str "EA")), .txt "0.0"]], .int 0)) ∧
    (∀ c : Item, List.lookup "type" c = none → List.lookup "size" c = none →
      List.lookup "length_ft" c = none → List.lookup "nec_compliant" c = none →
      conduit_rows [c] (.int 0) =
        .ok ([[.raw (.scalar (.str "EMT")), .raw (.scalar (.str "")),
               .txt "0", .raw (.scalar (.str "Yes"))]], .int 0)) := by
  refine ⟨?_, ?_, ?_⟩
  · intro r h1 h2 h3 h4 h5 h6
    simp only [route_row, dictGet, h1, h2, h3, h4, h5, h6]
    rfl
  · intro d h1 h2 h3 h4 h5 h6 h7
    simp only [device_rows, dictGet2, dictGet, h1, h2, h3, h4, h5, h6, h7]
    rfl
  · intro c h1 h2 h3 h4
    simp only [conduit_rows, dictGet, h1, h2, h3, h4]
    rfl

/-- C7 (witness): the amended theorem applied to the empty item in each
of the three sections. -/
theorem missing_field_declared_defaults_witness :
    route_row [] = .ok [.raw (.scalar (.str "")), .txt "", .txt "",
      .raw (.scalar (.str "")), .txt "", .txt nec_yes_text] ∧
    device_rows [([] : Item)] (.int 0) =
      .ok ([[.raw (.scalar (.str "Unknown")), .txt "0",
             .raw (.scalar (.str "EA")), .txt "0.0"]], .int 0) ∧
    conduit_rows [([] : Item)] (.int 0) =
      .ok ([[.raw (.scalar (.str "EMT")), .raw (.scalar (.str "")),
             .txt "0", .raw (.scalar (.str "Yes"))]], .int 0) :=
  ⟨missing_field_declared_defaults.1 [] rfl rfl rfl rfl rfl rfl,
   missing_field_declared_defaults.2.1 [] rfl rfl rfl rfl rfl rfl rfl,
   missing_field_declared_defaults.2.2 [] rfl rfl rfl rfl⟩

/-- C9: the suggested download filename is a deterministic function of
the project name and the resolved theme's display name — spaces are
replaced by the fixed underscore separator, then the theme name and the
fixed suffix are appended — so requests with the same project name and
the same resolved theme always produce the same filename. -/
theorem filename_deterministic :
    (∀ (p : String) (t1 t2 : Option String),
        get_trade_config t1 = get_trade_config t2 →
        make_filename p (get_trade_config t1) = make_filename p (get_trade_config t2)) ∧
    (∀ (p : String) (cfg : TradeConfig),
        make_filename p cfg = replaceSpaces p ++ "_" ++ cfg.name ++ "_Annotated.pdf") ∧
    make_filename "Main St Project" hvacConfig = "Main_St_Project_HVAC_Annotated.pdf" :=
  ⟨fun p t1 t2 h => by rw [h], fun p cfg => rfl, rfl⟩

/-- C9 (witness): the determinism clause applied to the unknown trade
"solar" and an absent trade, which resolve to the same theme. -/
theorem filename_deterministic_witness :
    make_filename "Site Plan" (get_trade_config (some "solar")) =
      make_filename "Site Plan" (get_trade_config none) :=
  filename_deterministic.1 "Site Plan" (some "solar") none rfl

/-- Resolution factors through lowercasing: for a present trade string
the lookup key is always the lowercased string (an empty string misses
the table and falls back to the default just like `"electrical"` would
be defaulted explicitly). -/
theorem get_trade_config_lower (s : String) :
    get_trade_config (some s) =
      (List.lookup (pyLower s) TRADE_CONFIGS).getD electricalConfig := by
  cases hse : s.isEmpty
  · simp [get_trade_config, hse]
  · have hs : s = "" := (String.isEmpty_iff s).mp hse
    subst hs
    rfl

/-- C4: theme resolution is case-insensitive over the fixed finite
table and never fails — any string lowercasing to a known id resolves to
that trade's theme; unknown, empty and absent ids resolve to the
electrical default; the heading/title styles and the three section
header backgrounds carry the resolved theme's configured colors; and the
render for the unknown id "solar" equals the default-themed render
exactly. -/
theorem trade_theme_resolution :
    (∀ s : String, pyLower s = "electrical" → get_trade_config (some s) = electricalConfig) ∧
    (∀ s : String, pyLower s = "hvac" → get_trade_config (some s) = hvacConfig) ∧
    (∀ s : String, pyLower s = "plumbing" → get_trade_config (some s) = plumbingConfig) ∧
    (∀ s : String, pyLower s = "flooring" → get_trade_config (some s) = flooringConfig) ∧
    get_trade_config none = electricalConfig ∧
    get_trade_config (some "") = electricalConfig ∧
    (∀ s : String, List.lookup (pyLower s) TRADE_CONFIGS = none →
      get_trade_config (some s) = electricalConfig) ∧
    (∀ cfg : TradeConfig, (heading_style cfg).textColor = cfg.primary_color ∧
      (title_style cfg).textColor = cfg.primary_color ∧
      (⟨"BACKGROUND", (0, 0), (-1, 0), [.colorArg cfg.primary_color]⟩ : StyleCmd) ∈
        route_table_style cfg ∧
      (⟨"BACKGROUND", (0, 0), (-1, 0), [.colorArg cfg.secondary_color]⟩ : StyleCmd) ∈
        device_table_style cfg ∧
      (⟨"BACKGROUND", (0, 0), (-1, 0), [.colorArg cfg.accent_color]⟩ : StyleCmd) ∈
        conduit_table_style cfg) ∧
    (∀ (data : Data) (today : String),
      build_pdf_from_data data (get_trade_config (some "solar")) today =
        build_pdf_from_data data electricalConfig today) := by
  refine ⟨?_, ?_, ?_, ?_, rfl, rfl, ?_, ?_, fun data today => rfl⟩
  · intro s h
    rw [get_trade_config_lower, h]
    rfl
  · intro s h
    rw [get_trade_config_lower, h]
    rfl
  · intro s h
    rw [get_trade_config_lower, h]
    rfl
  · intro s h
    rw [get_trade_config_lower, h]
    rfl
  · intro s h
    rw [get_trade_config_lower, h]
    rfl
  · intro cfg
    exact ⟨rfl, rfl, by simp [route_table_style], by simp [device_table_style],
           by simp [conduit_table_style]⟩

/-- C4 (witness): the case-insensitivity and unknown-fallback clauses at
the concrete ids "HVAC", "hvac" and "solar". -/
theorem trade_theme_resolution_witness :
    get_trade_config (some "HVAC") = hvacConfig ∧
    get_trade_config (some "hvac") = hvacConfig ∧
    get_trade_config (some "solar") = electricalConfig :=
  ⟨trade_theme_resolution.2.1 "HVAC" rfl,
   trade_theme_resolution.2.1 "hvac" rfl,
   trade_theme_resolution.2.2.2.2.2.2.1 "solar" rfl⟩

/-- C10: a truthy summary mapping renders a block with exactly the
three fixed rows reading only `total_devices`, `total_conduit_ft` and
`total_routes` (each defaulting to 0 when absent, every other key
ignored), and a present-but-empty summary mapping renders nothing,
exactly like an absent one. -/
theorem summary_block_three_fixed_rows :
    (∀ cfg : TradeConfig, summary_section cfg (.dict []) = .ok []) ∧
    (∀ (cfg : TradeConfig) (m : List (String × Scalar)), m ≠ [] →
      summary_section cfg (.dict m) =
        .ok [.para summary_heading_text (heading_style cfg),
             .table ⟨summary_rows m, [2 * inch, 2 * inch], summary_table_style cfg, 0⟩]) ∧
    (∀ m : List (String × Scalar), (summary_rows m).length = 3) ∧
    (∀ m : List (String × Scalar), summary_rows m =
      [[.txt "Total Devices:", .txt (dictGet m "total_devices" (.int 0)).pyStr],
       [.txt "Total Conduit:", .txt ((dictGet m "total_conduit_ft" (.int 0)).pyStr ++ " ft")],
       [.txt "Total Routes:", .txt (dictGet m "total_routes" (.int 0)).pyStr]]) ∧
    (∀ m1 m2 : List (String × Scalar),
      List.lookup "total_devices" m1 = List.lookup "total_devices" m2 →
      List.lookup "total_conduit_ft" m1 = List.lookup "total_conduit_ft" m2 →
      List.lookup "total_routes" m1 = List.lookup "total_routes" m2 →
      summary_rows m1 = summary_rows m2) ∧
    (∀ (data : Data) (cfg : TradeConfig) (today : String),
      List.lookup "summary" data = none →
      build_pdf_from_data (("summary", Field.dict []) :: data) cfg today =
        build_pdf_from_data data cfg today) := by
  refine ⟨fun cfg => rfl, ?_, fun m => rfl, fun m => rfl, ?_, ?_⟩
  · intro cfg m hm
    cases m with
    | nil => exact absurd rfl hm
    | cons p rest => rfl
  · intro m1 m2 h1 h2 h3
    simp [summary_rows, dictGet, h1, h2, h3]
  · intro data cfg today h
    have hinfo : info_rows (("summary", Field.dict []) :: data) today cfg =
        info_rows data today cfg := by
      simp [info_rows, dataGet, List.lookup]
    have hck : dataGet (("summary", Field.dict []) :: data) "conduitRoutes" (.list []) =
        dataGet data "conduitRoutes" (.list []) := by
      simp [dataGet, List.lookup]
    have hdk : dataGet (("summary", Field.dict []) :: data) "deviceCounts"
          (dataGet (("summary", Field.dict []) :: data) "devices" (.list [])) =
        dataGet data "deviceCounts" (dataGet data "devices" (.list [])) := by
      simp [dataGet, List.lookup]
    have hcd : dataGet (("summary", Field.dict []) :: data) "conduit" (.list []) =
        dataGet data "conduit" (.list []) := by
      simp [dataGet, List.lookup]
    have hs1 : dataGet (("summary", Field.dict []) :: data) "summary" (.dict []) =
        Field.dict [] := by
      simp [dataGet, List.lookup]
    have hs2 : dataGet data "summary" (.dict []) = Field.dict [] := by
      simp [dataGet, h]
    simp only [build_pdf_from_data, hinfo, hck, hdk, hcd, hs1, hs2]

/-- C10 (witness): the summary clauses at concrete mappings — a mapping
with an extra key renders the same rows as one with a different extra
key, and a present-but-empty summary renders the same story as an absent
one. -/
theorem summary_block_three_fixed_rows_witness :
    summary_section electricalConfig
        (.dict [("total_devices", Scalar.int 7), ("extra", Scalar.str "x")]) =
      .ok [.para summary_heading_text (heading_style electricalConfig),
           .table ⟨summary_rows [("total_devices", Scalar.int 7), ("extra", Scalar.str "x")],
                   [2 * inch, 2 * inch], summary_table_style electricalConfig, 0⟩] ∧
    summary_rows [("total_devices", Scalar.int 7), ("extra", Scalar.str "x")] =
      summary_rows [("total_devices", Scalar.int 7), ("other", Scalar.bool true)] ∧
    build_pdf_from_data [("summary", Field.dict [])] electricalConfig "2025-10-12" =
      build_pdf_from_data [] electricalConfig "2025-10-12" :=
  ⟨summary_block_three_fixed_rows.2.1 electricalConfig _ (by decide),
   summary_block_three_fixed_rows.2.2.2.2.1 _ _ rfl rfl rfl,
   summary_block_three_fixed_rows.2.2.2.2.2 [] electricalConfig "2025-10-12" rfl⟩

/-- On numeric labor values the device loop never fails: it produces
exactly one row per input item (the closed form `device_row_pure`, in
input order) and an accumulator carrying the exact running sum. -/
theorem device_rows_numeric (ds : List Item) (t : Scalar)
    (ht : t.isNumLike = true) (hds : ∀ d ∈ ds, (laborVal d).isNumLike = true) :
    ∃ tS, device_rows ds t = .ok (ds.map device_row_pure, tS) ∧
      tS.isNumLike = true ∧ tS.qval = t.qval + laborTotal ds := by
  induction ds generalizing t with
  | nil => exact ⟨t, by simp [device_rows], ht, by simp [laborTotal]⟩
  | cons device rest ih =>
      have hdev : (laborVal device).isNumLike = true := hds device (by simp)
      obtain ⟨t', hadd, ht', hq⟩ := pyAdd_num t (laborVal device) ht hdev
      obtain ⟨tS, hrec, htS, hqS⟩ := ih t' ht' (fun d hd => hds d (by simp [hd]))
      refine ⟨tS, ?_, htS, ?_⟩
      · have hadd' : pyAdd t (dictGet2 device "total_labor_hours" "labor_hours" (.int 0)) =
            .ok t' := hadd
        have hfmt : formatFixed1 (dictGet2 device "total_labor_hours" "labor_hours" (.int 0)) =
            .ok (formatFixed1q (laborVal device).qval) := formatFixed1_num _ hdev
        simp [device_rows, hadd', hfmt, hrec, device_row_pure, laborVal]
      · rw [hqS, hq]
        simp [laborTotal]
        ring

/-- C6: for every non-empty device list with numeric labor values the
device table is header, one row per input item, then exactly one final
TOTAL row `["TOTAL", "", "", f"{total:.1f} hrs"]` whose aggregated value
is the exact sum of the per-row labor-hours values, with blank cells in
the non-aggregated columns; on the spec's example `[1.5, 2.0, 3.25]`
the aggregated value is `6.75`. -/
theorem device_total_row_sums_labor (cfg : TradeConfig) (ds : List Item)
    (hne : ds ≠ []) (hnum : ∀ d ∈ ds, (laborVal d).isNumLike = true) :
    device_section cfg (.list ds) =
      .ok [.para device_heading_text (heading_style cfg),
           .table ⟨device_headers ::
               (ds.map device_row_pure ++
                [[.txt "TOTAL", .txt "", .txt "",
                  .txt (formatFixed1q (laborTotal ds) ++ " hrs")]]),
             [3 * inch, 1 * inch, 0.8 * inch, 1.5 * inch], device_table_style cfg, 0⟩,
           .spacer 1 (0.2 * inch)] ∧
    laborTotal [[("labor_hours", Scalar.float (3/2))], [("labor_hours", Scalar.float 2)],
                [("labor_hours", Scalar.float (13/4))]] = 27/4 := by
  constructor
  · have htr : (Field.list ds).truthy = true := by
      cases ds with
      | nil => exact absurd rfl hne
      | cons x xs => rfl
    obtain ⟨tS, hrows, htS, hq⟩ := device_rows_numeric ds (.int 0) rfl hnum
    have hq0 : tS.qval = laborTotal ds := by
      rw [hq]
      simp [Scalar.qval]
    have hfmt : formatFixed1 tS = .ok (formatFixed1q (laborTotal ds)) := by
      rw [formatFixed1_num tS htS, hq0]
    simp [device_section, htr, Field.asItems, hrows, hfmt]
  · rw [show laborTotal [[("labor_hours", Scalar.float (3/2))], [("labor_hours", Scalar.float 2)],
          [("labor_hours", Scalar.float (13/4))]] = 3/2 + (2 + (13/4 + 0)) from rfl]
    norm_num

/-- C6 (witness): the theorem at the spec's example rows with labor
hours 1.5, 2.0 and 3.25. -/
theorem device_total_row_sums_labor_witness :
    device_section electricalConfig
        (.list [[("labor_hours", Scalar.float (3/2))], [("labor_hours", Scalar.float 2)],
                [("labor_hours", Scalar.float (13/4))]]) =
      .ok [.para device_heading_text (heading_style electricalConfig),
           .table ⟨device_headers ::
               (([[("labor_hours", Scalar.float (3/2))], [("labor_hours", Scalar.float 2)],
                  [("labor_hours", Scalar.float (13/4))]].map device_row_pure) ++
                [[.txt "TOTAL", .txt "", .txt "",
                  .txt (formatFixed1q (laborTotal
                    [[("labor_hours", Scalar.float (3/2))], [("labor_hours", Scalar.float 2)],
                     [("labor_hours", Scalar.float (13/4))]]) ++ " hrs")]]),
             [3 * inch, 1 * inch, 0.8 * inch, 1.5 * inch],
             device_table_style electricalConfig, 0⟩,
           .spacer 1 (0.2 * inch)] :=
  (device_total_row_sums_labor electricalConfig _ (by decide) (by decide)).1

/-- C3: each optional block renders nothing exactly when its input value
is falsy (for a collection: exactly when it is empty), and a request
whose four collections are all empty and whose summary is empty or
absent builds a story that is exactly the title, the metadata table and
the footer — no section tables, no header-only tables, no page
breaks. -/
theorem empty_sections_render_minimal_story :
    (∀ (cfg : TradeConfig) (f : Field), route_section cfg f = .ok [] ↔ f.truthy = false) ∧
    (∀ (cfg : TradeConfig) (f : Field), device_section cfg f = .ok [] ↔ f.truthy = false) ∧
    (∀ (cfg : TradeConfig) (f : Field), conduit_section cfg f = .ok [] ↔ f.truthy = false) ∧
    (∀ (cfg : TradeConfig) (f : Field), summary_section cfg f = .ok [] ↔ f.truthy = false) ∧
    (∀ (data : Data) (cfg : TradeConfig) (today : String),
      dataGet data "conduitRoutes" (.list []) = .list [] →
      dataGet data "deviceCounts" (dataGet data "devices" (.list [])) = .list [] →
      dataGet data "conduit" (.list []) = .list [] →
      dataGet data "summary" (.dict []) = .dict [] →
      build_pdf_from_data data cfg today =
        .ok [.para (title_text cfg) (title_style cfg),
             .spacer 1 (0.2 * inch),
             .table ⟨info_rows data today cfg, [1.5 * inch, 5 * inch],
                     info_table_style cfg, 0⟩,
             .spacer 1 (0.3 * inch),
             .spacer 1 (0.5 * inch),
             .para "Generated by AMPED AI Estimating Assistant v3.2" footer_style,
             .para "¬© 2025 Amped Integrations, LLC" footer_style]) := by
  refine ⟨?_, ?_, ?_, ?_, ?_⟩
  · intro cfg f
    cases hft : f.truthy
    · simp [route_section, hft]
    · simp only [Bool.true_eq_false, iff_false]
      intro h
      cases f with
      | scalar v => simp [route_section, hft, Field.asItems] at h
      | dict m => simp [route_section, hft, Field.asItems] at h
      | list items =>
          cases hm : route_rows_list items with
          | error e => simp [route_section, hft, Field.asItems, hm] at h
          | ok rows => simp [route_section, hft, Field.asItems, hm] at h
  · intro cfg f
    cases hft : f.truthy
    · simp [device_section, hft]
    · simp only [Bool.true_eq_false, iff_false]
      intro h
      cases f with
      | scalar v => simp [device_section, hft, Field.asItems] at h
      | dict m => simp [device_section, hft, Field.asItems] at h
      | list items =>
          cases hm : device_rows items (.int 0) with
          | error e => simp [device_section, hft, Field.asItems, hm] at h
          | ok pr =>
              obtain ⟨rows, total⟩ := pr
              cases hfm : formatFixed1 total with
              | error e => simp [device_section, hft, Field.asItems, hm, hfm] at h
              | ok s => simp [device_section, hft, Field.asItems, hm, hfm] at h
  · intro cfg f
    cases hft : f.truthy
    · simp [conduit_section, hft]
    · simp only [Bool.true_eq_false, iff_false]
      intro h
      cases f with
      | scalar v => simp [conduit_section, hft, Field.asItems] at h
      | dict m => simp [conduit_section, hft, Field.asItems] at h
      | list items =>
          cases hm : conduit_rows items (.int 0) with
          | error e => simp [conduit_section, hft, Field.asItems, hm] at h
          | ok pr =>
              obtain ⟨rows, total⟩ := pr
              simp [conduit_section, hft, Field.asItems, hm] at h
  · intro cfg f
    cases hft : f.truthy
    · simp [summary_section, hft]
    · simp only [Bool.true_eq_false, iff_false]
      intro h
      cases f with
      | scalar v => simp [summary_section, hft, Field.asDict] at h
      | list items => simp [summary_section, hft, Field.asDict] at h
      | dict m => simp [summary_section, hft, Field.asDict] at h
  · intro data cfg today h1 h2 h3 h4
    simp [build_pdf_from_data, h1, h2, h3, h4, route_section, device_section,
          conduit_section, summary_section, Field.truthy]

/-- C3 (witness): the empty payload builds exactly the minimal
seven-flowable story. -/
theorem empty_sections_render_minimal_story_witness :
    build_pdf_from_data [] electricalConfig "2025-10-12" =
      .ok [.para (title_text electricalConfig) (title_style electricalConfig),
           .spacer 1 (0.2 * inch),
           .table ⟨info_rows [] "2025-10-12" electricalConfig, [1.5 * inch, 5 * inch],
                   info_table_style electricalConfig, 0⟩,
           .spacer 1 (0.3 * inch),
           .spacer 1 (0.5 * inch),
           .para "Generated by AMPED AI Estimating Assistant v3.2" footer_style,
           .para "¬© 2025 Amped Integrations, LLC" footer_style] :=
  empty_sections_render_minimal_story.2.2.2.2 [] electricalConfig "2025-10-12" rfl rfl rfl rfl

/-- C2: the build is a pure function of payload, theme and the date
string, and two builds with identical payload and theme agree everywhere
except possibly the generated-at date cell of the metadata table: after
blanking that one cell the two stories (or the two failures) are
identical, so page content, section rows, ordering, sizes and colors do
not depend on time, and the embedding has no source of randomness. -/
theorem render_deterministic_up_to_timestamp (data : Data) (cfg : TradeConfig)
    (t1 t2 : String) :
    Except.map scrub_date (build_pdf_from_data data cfg t1) =
      Except.map scrub_date (build_pdf_from_data data cfg t2) := by
  cases h1 : route_section cfg (dataGet data "conduitRoutes" (.list [])) with
  | error e => simp [build_pdf_from_data, h1]
  | ok r =>
    cases h2 : device_section cfg
        (dataGet data "deviceCounts" (dataGet data "devices" (.list []))) with
    | error e => simp [build_pdf_from_data, h1, h2]
    | ok dv =>
      cases h3 : conduit_section cfg (dataGet data "conduit" (.list [])) with
      | error e => simp [build_pdf_from_data, h1, h2, h3]
      | ok cd =>
        cases h4 : summary_section cfg (dataGet data "summary" (.dict [])) with
        | error e => simp [build_pdf_from_data, h1, h2, h3, h4]
        | ok sm =>
          simp [build_pdf_from_data, h1, h2, h3, h4, Except.map, scrub_date,
                scrub_info_rows, info_rows]

/-- Every table the route section emits carries repeatRows = 0. -/
theorem route_section_tables (cfg : TradeConfig) (f : Field) (fl : List Flowable)
    (h : route_section cfg f = .ok fl) :
    ∀ t : PTable, .table t ∈ fl → t.repeatRows = 0 := by
  intro t ht
  cases hft : f.truthy
  · simp [route_section, hft] at h
    subst h
    simp at ht
  · cases f with
    | scalar v => simp [route_section, hft, Field.asItems] at h
    | dict m => simp [route_section, hft, Field.asItems] at h
    | list items =>
        cases hm : route_rows_list items with
        | error e => simp [route_section, hft, Field.asItems, hm] at h
        | ok rows =>
            simp [route_section, hft, Field.asItems, hm] at h
            subst h
            simp at ht
            subst ht
            rfl

/-- Every table the device section emits carries repeatRows = 0. -/
theorem device_section_tables (cfg : TradeConfig) (f : Field) (fl : List Flowable)
    (h : device_section cfg f = .ok fl) :
    ∀ t : PTable, .table t ∈ fl → t.repeatRows = 0 := by
  intro t ht
  cases hft : f.truthy
  · simp [device_section, hft] at h
    subst h
    simp at ht
  · cases f with
    | scalar v => simp [device_section, hft, Field.asItems] at h
    | dict m => simp [device_section, hft, Field.asItems] at h
    | list items =>
        cases hm : device_rows items (.int 0) with
        | error e => simp [device_section, hft, Field.asItems, hm] at h
        | ok pr =>
            obtain ⟨rows, total⟩ := pr
            cases hfm : formatFixed1 total with
            | error e => simp [device_section, hft, Field.asItems, hm, hfm] at h
            | ok s =>
                simp [device_section, hft, Field.asItems, hm, hfm] at h
                subst h
                simp at ht
                subst ht
                rfl

/-- Every table the conduit section emits carries repeatRows = 0. -/
theorem conduit_section_tables (cfg : TradeConfig) (f : Field) (fl : List Flowable)
    (h : conduit_section cfg f = .ok fl) :
    ∀ t : PTable, .table t ∈ fl → t.repeatRows = 0 := by
  intro t ht
  cases hft : f.truthy
  · simp [conduit_section, hft] at h
    subst h
    simp at ht
  · cases f with
    | scalar v => simp [conduit_section, hft, Field.asItems] at h
    | dict m => simp [conduit_section, hft, Field.asItems] at h
    | list items =>
        cases hm : conduit_rows items (.int 0) with
        | error e => simp [conduit_section, hft, Field.asItems, hm] at h
        | ok pr =>
            obtain ⟨rows, total⟩ := pr
            simp [conduit_section, hft, Field.asItems, hm] at h
            subst h
            simp at ht
            subst ht
            rfl

/-- Every table the summary section emits carries repeatRows = 0. -/
theorem summary_section_tables (cfg : TradeConfig) (f : Field) (fl : List Flowable)
    (h : summary_section cfg f = .ok fl) :
    ∀ t : PTable, .table t ∈ fl → t.repeatRows = 0 := by
  intro t ht
  cases hft : f.truthy
  · simp [summary_section, hft] at h
    subst h
    simp at ht
  · cases f with
    | scalar v => simp [summary_section, hft, Field.asDict] at h
    | list items => simp [summary_section, hft, Field.asDict] at h
    | dict m =>
        simp [summary_section, hft, Field.asDict] at h
        subst h
        simp at ht
        subst ht
        rfl

/-- Every table of every successfully built story carries the platypus
constructor default repeatRows = 0. -/
theorem build_tables_repeatRows (data : Data) (cfg : TradeConfig) (today : String)
    (fl : List Flowable) (h : build_pdf_from_data data cfg today = .ok fl) :
    ∀ t : PTable, .table t ∈ fl → t.repeatRows = 0 := by
  cases h1 : route_section cfg (dataGet data "conduitRoutes" (.list [])) with
  | error e => simp [build_pdf_from_data, h1] at h
  | ok r =>
    cases h2 : device_section cfg
        (dataGet data "deviceCounts" (dataGet data "devices" (.list []))) with
    | error e => simp [build_pdf_from_data, h1, h2] at h
    | ok dv =>
      cases h3 : conduit_section cfg (dataGet data "conduit" (.list [])) with
      | error e => simp [build_pdf_from_data, h1, h2, h3] at h
      | ok cd =>
        cases h4 : summary_section cfg (dataGet data "summary" (.dict [])) with
        | error e => simp [build_pdf_from_data, h1, h2, h3, h4] at h
        | ok sm =>
            simp [build_pdf_from_data, h1, h2, h3, h4] at h
            subst h
            intro t ht
            simp [List.mem_append] at ht
            rcases ht with h5 | h5 | h5 | h5 | h5
            · subst h5
              rfl
            · exact route_section_tables cfg _ r h1 t h5
            · exact device_section_tables cfg _ dv h2 t h5
            · exact conduit_section_tables cfg _ cd h3 t h5
            · exact summary_section_tables cfg _ sm h4 t h5

/-- C8 (amended): every table in every built story is constructed with
the platypus constructor default repeatRows = 0, so when the layout
engine splits it at a page break the continuation is exactly the
remaining rows with no repeated header: the two parts concatenate to the
original rows, and the total rendered row count stays the input data
rows plus the single original header row. -/
theorem table_split_no_repeated_header (data : Data) (cfg : TradeConfig) (today : String)
    (fl : List Flowable) (t : PTable)
    (h : build_pdf_from_data data cfg today = .ok fl) (ht : .table t ∈ fl) :
    t.repeatRows = 0 ∧
    ∀ k : Nat, table_split_rows t.rows t.repeatRows k = (t.rows.take k, t.rows.drop k) ∧
      (table_split_rows t.rows t.repeatRows k).1 ++
        (table_split_rows t.rows t.repeatRows k).2 = t.rows := by
  have h0 := build_tables_repeatRows data cfg today fl h t ht
  refine ⟨h0, fun k => ?_⟩
  rw [h0]
  exact ⟨by simp [table_split_rows], by simp [table_split_rows]⟩

/-- Routes payload for the pagination counterexample. -/
def c8_routes : List Item :=
  [[("routeId", Scalar.str "R1")], [("routeId", Scalar.str "R2")],
   [("routeId", Scalar.str "R3")]]

/-- The route-table data row for a route record carrying only an id. -/
def c8_row (rid : String) : List Cell :=
  [.raw (.scalar (.str rid)), .txt "", .txt "", .raw (.scalar (.str "")), .txt "",
   .txt nec_yes_text]

/-- C8 (counterexample): the route table the app builds from three
routes, split after two rows, continues with the remaining rows only —
the continuation does not start with the repeated header row, and the
total row count across the two parts is the original 4 (3 data rows plus
the single header), not input-plus-an-extra-header. -/
theorem pagination_header_repeat_counterexample :
    route_section electricalConfig (.list c8_routes) =
      .ok [.para route_heading_text (heading_style electricalConfig),
           .table ⟨route_headers :: [c8_row "R1", c8_row "R2", c8_row "R3"],
                   [0.8 * inch, 1.8 * inch, 1.8 * inch, 0.8 * inch, 1 * inch, 1.2 * inch],
                   route_table_style electricalConfig, 0⟩,
           .spacer 1 (0.2 * inch)] ∧
    (table_split_rows (route_headers :: [c8_row "R1", c8_row "R2", c8_row "R3"]) 0 2).2 =
      [c8_row "R2", c8_row "R3"] ∧
    (table_split_rows (route_headers :: [c8_row "R1", c8_row "R2", c8_row "R3"]) 0 2).2.head? ≠
      some route_headers ∧
    (table_split_rows (route_headers :: [c8_row "R1", c8_row "R2", c8_row "R3"]) 0 2).1.length +
      (table_split_rows (route_headers :: [c8_row "R1", c8_row "R2", c8_row "R3"]) 0 2).2.length =
      4 :=
  ⟨rfl, rfl, by decide, rfl⟩

/-- C8 (witness): the amended theorem applied to the metadata table of
the empty payload's story. -/
theorem table_split_no_repeated_header_witness :
    (⟨info_rows [] "2025-10-12" electricalConfig, [1.5 * inch, 5 * inch],
      info_table_style electricalConfig, 0⟩ : PTable).repeatRows = 0 ∧
    ∀ k : Nat,
      table_split_rows (⟨info_rows [] "2025-10-12" electricalConfig, [1.5 * inch, 5 * inch],
          info_table_style electricalConfig, 0⟩ : PTable).rows
        (⟨info_rows [] "2025-10-12" electricalConfig, [1.5 * inch, 5 * inch],
          info_table_style electricalConfig, 0⟩ : PTable).repeatRows k =
        ((⟨info_rows [] "2025-10-12" electricalConfig, [1.5 * inch, 5 * inch],
          info_table_style electricalConfig, 0⟩ : PTable).rows.take k,
         (⟨info_rows [] "2025-10-12" electricalConfig, [1.5 * inch, 5 * inch],
          info_table_style electricalConfig, 0⟩ : PTable).rows.drop k) ∧
      (table_split_rows (⟨info_rows [] "2025-10-12" electricalConfig, [1.5 * inch, 5 * inch],
          info_table_style electricalConfig, 0⟩ : PTable).rows
        (⟨info_rows [] "2025-10-12" electricalConfig, [1.5 * inch, 5 * inch],
          info_table_style electricalConfig, 0⟩ : PTable).repeatRows k).1 ++
      (table_split_rows (⟨info_rows [] "2025-10-12" electricalConfig, [1.5 * inch, 5 * inch],
          info_table_style electricalConfig, 0⟩ : PTable).rows
        (⟨info_rows [] "2025-10-12" electricalConfig, [1.5 * inch, 5 * inch],
          info_table_style electricalConfig, 0⟩ : PTable).repeatRows k).2 =
      (⟨info_rows [] "2025-10-12" electricalConfig, [1.5 * inch, 5 * inch],
        info_table_style electricalConfig, 0⟩ : PTable).rows :=
  table_split_no_repeated_header [] electricalConfig "2025-10-12"
    [.para (title_text electricalConfig) (title_style electricalConfig),
     .spacer 1 (0.2 * inch),
     .table ⟨info_rows [] "2025-10-12" electricalConfig, [1.5 * inch, 5 * inch],
             info_table_style electricalConfig, 0⟩,
     .spacer 1 (0.3 * inch),
     .spacer 1 (0.5 * inch),
     .para "Generated by AMPED AI Estimating Assistant v3.2" footer_style,
     .para "¬© 2025 Amped Integrations, LLC" footer_style]
    ⟨info_rows [] "2025-10-12" electricalConfig, [1.5 * inch, 5 * inch],
     info_table_style electricalConfig, 0⟩
    rfl
    (List.mem_cons_of_mem _ (List.mem_cons_of_mem _ (List.mem_cons_self _ _)))

end AmpedPdf
